import Mathlib

/-!
# Verification of the `edwatch` orrery (src/orrery.py)

Shallow embedding of the orrery's data model and operations:
the celestial-body record, the body mapping and star list, orbital
position calculation, recursive position resolution along the parent
chain, the Scan-event model builder, and the journal-file watcher.

Numbers: the Python code works with floats; since no verified claim
depends on rounding, real arithmetic is embedded as exact `ℚ`
arithmetic, and the trigonometric projection (whose defining code is
not part of the provided source) is abstracted by `sin`/`cos`
function parameters and a rational stand-in for π.
-/

/-- Rational stand-in for `math.pi`.  π itself is irrational; no claim
depends on the numeric value, only on it being a fixed constant. -/
def pi_rat : ℚ := 355 / 113

/-- The `CelestialBody` dataclass (src/orrery.py lines 19-40), with the
same defaults.  Body identifiers are JSON numbers, embedded as `ℚ`. -/
structure CelestialBody where
  body_id : ℚ
  name : String
  type : String
  parent_id : Option ℚ
  semi_major_axis : ℚ := 0
  eccentricity : ℚ := 0
  orbital_inclination : ℚ := 0
  orbital_period : ℚ := 0
  ascending_node : ℚ := 0
  mean_anomaly : ℚ := 0
  radius : ℚ := 0
  mass : ℚ := 0
  distance_from_arrival : ℚ := 0
  planet_class : String := ""
  surface_temp : ℚ := 0
  surface_gravity : ℚ := 0
  atmosphere_type : String := ""
  terraform_state : String := ""
  is_landable : Bool := false
deriving Repr, DecidableEq

/-- The mutable session state owned by the `SystemOrrery` window
(src/orrery.py lines 54-104): the body mapping (a Python dict, embedded
as an association list keyed by body identifier), the list of star
identifiers, the pan offset (`center_x`/`center_y`), the fixed
distance-to-pixel `scale_factor` (1e-9), the user zoom, the canvas
dimensions (`canvas.winfo_width()`/`winfo_height()`), the animation
clock, and the messages written through `logging.error`. -/
structure OrreryState where
  bodies : List (ℚ × CelestialBody) := []
  stars : List ℚ := []
  center_x : ℚ := 0
  center_y : ℚ := 0
  scale_factor : ℚ := 1 / 1000000000
  zoom : ℚ := 1
  canvas_width : ℚ := 0
  canvas_height : ℚ := 0
  animation_time : ℚ := 0
  log : List String := []
deriving Repr, DecidableEq

/-- `dict.get(k)`: lookup in the body mapping. -/
def dictGet : List (ℚ × CelestialBody) → ℚ → Option CelestialBody
  | [], _ => none
  | (k', v) :: rest, k => if k' = k then some v else dictGet rest k

/-- `dict[k] = v`: replace in place if the key is present, else append
(Python dicts keep insertion order). -/
def dictInsert : List (ℚ × CelestialBody) → ℚ → CelestialBody → List (ℚ × CelestialBody)
  | [], k, v => [(k, v)]
  | (k', v') :: rest, k, v =>
    if k' = k then (k, v) :: rest else (k', v') :: dictInsert rest k v

/-- Modelled from the spec: `calculate_position` is called from
`get_body_position` (src/orrery.py line 162) but its definition is not in
the provided source.  Spec §4.1: given the body's orbital elements and an
elapsed time, return a 2D offset from the immediate parent — a Keplerian
orbit approximation projected to 2D, scaled by the fixed distance-to-pixel
factor and the user zoom multiplier; a zero orbital period must degenerate
to a fixed/static position (no division by zero), and a zero semi-major
axis collapses the body onto its parent.  The trigonometric projection is
abstracted by the `sin`/`cos` parameters since no claim depends on its
numeric values. -/
def calculate_position (sin cos : ℚ → ℚ) (scale_factor zoom : ℚ)
    (body : CelestialBody) (t : ℚ) : ℚ × ℚ :=
  if body.semi_major_axis = 0 then (0, 0)
  else
    let angle :=
      if body.orbital_period = 0 then body.mean_anomaly
      else body.mean_anomaly + 2 * pi_rat * (t / body.orbital_period)
    let r := body.semi_major_axis * (1 - body.eccentricity * body.eccentricity)
               / (1 + body.eccentricity * cos angle)
    (r * cos (angle + body.ascending_node) * scale_factor * zoom,
     r * sin (angle + body.ascending_node) * cos body.orbital_inclination
       * scale_factor * zoom)

/-- `get_body_position` (src/orrery.py lines 150-163).  A body whose
`parent_id` is `None` or `0`, or whose parent is absent from the mapping,
sits at the pan-adjusted canvas center; otherwise its position is the
parent's position plus its own orbital offset.  The Python recursion is
unguarded, so the embedding adds a fuel parameter: fuel `0` (result
`none`) models a recursion that has not yet reached a base case, and a
mapping on which every fuel returns `none` models divergence. -/
def get_body_position (sin cos : ℚ → ℚ) (st : OrreryState) :
    Nat → CelestialBody → Option (ℚ × ℚ)
  | 0, _ => none
  | n + 1, body =>
    match body.parent_id with
    | none => some (st.canvas_width / 2 + st.center_x, st.canvas_height / 2 + st.center_y)
    | some p =>
      if p = 0 then
        some (st.canvas_width / 2 + st.center_x, st.canvas_height / 2 + st.center_y)
      else
        match dictGet st.bodies p with
        | none => some (st.canvas_width / 2 + st.center_x, st.canvas_height / 2 + st.center_y)
        | some parent =>
          match get_body_position sin cos st n parent with
          | none => none
          | some (px, py) =>
            let off := calculate_position sin cos st.scale_factor st.zoom body st.animation_time
            some (px + off.1, py + off.2)

/-- State-threaded rendering of `get_body_position`: the method only ever
reads `self` (bodies, pan offset, zoom, canvas dimensions, animation
clock) and performs no writes, which the explicit state passing makes
visible: every branch returns the state it was given. -/
def get_body_position_run (sin cos : ℚ → ℚ) :
    Nat → CelestialBody → OrreryState → Option (ℚ × ℚ) × OrreryState
  | 0, _, st => (none, st)
  | n + 1, body, st =>
    match body.parent_id with
    | none =>
      (some (st.canvas_width / 2 + st.center_x, st.canvas_height / 2 + st.center_y), st)
    | some p =>
      if p = 0 then
        (some (st.canvas_width / 2 + st.center_x, st.canvas_height / 2 + st.center_y), st)
      else
        match dictGet st.bodies p with
        | none =>
          (some (st.canvas_width / 2 + st.center_x, st.canvas_height / 2 + st.center_y), st)
        | some parent =>
          let r := get_body_position_run sin cos n parent st
          match r.1 with
          | none => (none, r.2)
          | some (px, py) =>
            let off := calculate_position sin cos r.2.scale_factor r.2.zoom body
                         r.2.animation_time
            (some (px + off.1, py + off.2), r.2)

/-- A parsed JSON value, as handed to `process_log_entry` by
`json.loads` in `monitor_logs`. -/
inductive JValue where
  | jnull : JValue
  | jbool : Bool → JValue
  | jnum : ℚ → JValue
  | jstr : String → JValue
  | jarr : List JValue → JValue
  | jobj : List (String × JValue) → JValue

/-- `data.get(k)` / `k in data` on a parsed JSON object.  `json.loads`
keeps the last occurrence of a duplicated key, hence the lookup prefers
later entries. -/
def jlookup : List (String × JValue) → String → Option JValue
  | [], _ => none
  | (k', v) :: rest, k =>
    match jlookup rest k with
    | some w => some w
    | none => if k' = k then some v else none

/-- `data.get(k, d)`. -/
def jgetD (data : List (String × JValue)) (k : String) (d : JValue) : JValue :=
  (jlookup data k).getD d

/-- Python's `float(...)` applied to a JSON value; `Except` models the
exception on inconvertible values (the `Scan` feed carries its numeric
fields as JSON numbers, so `float` of a numeric string is not exercised
by any claim and is treated as a failure like the other non-numbers). -/
def pyFloat : JValue → Except String ℚ
  | .jnum q => .ok q
  | .jbool b => .ok (if b then 1 else 0)
  | _ => .error "TypeError: could not convert value to float"

/-- A JSON value stored into a string-typed display field
(`PlanetClass`, `AtmosphereType`, `TerraformState`); these fields carry
JSON strings in the feed and are used only for display. -/
def pyStr : JValue → String
  | .jstr s => s
  | _ => ""

/-- Python truthiness of a JSON value, as applied to the raw
`Landable` field when the record is displayed. -/
def jTruthy : JValue → Bool
  | .jnull => false
  | .jbool b => b
  | .jnum q => q ≠ 0
  | .jstr s => s ≠ ""
  | .jarr xs => ¬xs.isEmpty
  | .jobj fs => ¬fs.isEmpty

/-- `body_id = data.get('BodyID', 0)` (src/orrery.py line 203); the feed
supplies integer identifiers as JSON numbers. -/
def getBodyId (data : List (String × JValue)) : ℚ :=
  match jgetD data "BodyID" (.jnum 0) with
  | .jnum q => q
  | _ => 0

/-- `is_star = 'StarType' in data` (src/orrery.py line 206). -/
def is_star_of (data : List (String × JValue)) : Bool :=
  (jlookup data "StarType").isSome

/-- Modelled from the spec: `get_parent_id` is called at src/orrery.py
line 211 but its definition is not in the provided source.  Spec §4.4:
"Resolves the declared parent identifier from an ordered list of
ancestry descriptors, taking the nearest ancestor" — the `Parents`
field is an ordered list of one-field objects (kind → identifier),
nearest ancestor first; an empty list means no parent, and a value of
any other shape raises (caught by the caller's handler). -/
def get_parent_id : JValue → Except String (Option ℚ)
  | .jarr [] => .ok none
  | .jarr (.jobj ((_, .jnum q) :: _) :: _) => .ok (some q)
  | _ => .error "unrecognised ancestry descriptor"

/-- The body-record construction inside the `try` block of
`process_log_entry` (src/orrery.py lines 205-228): `Except` models the
exception raised while building (a missing `BodyName` key, an
inconvertible numeric field, or a malformed `Parents` list); angles are
converted from degrees to radians. -/
def build_body (data : List (String × JValue)) : Except String CelestialBody := do
  let is_star := is_star_of data
  let name ← match jlookup data "BodyName" with
    | some v => Except.ok (pyStr v)
    | none => Except.error "KeyError: BodyName"
  let parent_id ← get_parent_id (jgetD data "Parents" (.jarr []))
  let semi_major_axis ← pyFloat (jgetD data "SemiMajorAxis" (.jnum 0))
  let eccentricity ← pyFloat (jgetD data "Eccentricity" (.jnum 0))
  let orbital_inclination ← pyFloat (jgetD data "OrbitalInclination" (.jnum 0))
  let orbital_period ← pyFloat (jgetD data "OrbitalPeriod" (.jnum 0))
  let ascending_node ← pyFloat (jgetD data "AscendingNode" (.jnum 0))
  let mean_anomaly ← pyFloat (jgetD data "MeanAnomaly" (.jnum 0))
  let radius ← pyFloat (jgetD data "Radius" (.jnum 0))
  let mass ← pyFloat (jgetD data (if is_star then "StellarMass" else "MassEM") (.jnum 0))
  let distance_from_arrival ← pyFloat (jgetD data "DistanceFromArrivalLS" (.jnum 0))
  let surface_temp ← pyFloat (jgetD data "SurfaceTemperature" (.jnum 0))
  let surface_gravity ← pyFloat (jgetD data "SurfaceGravity" (.jnum 0))
  Except.ok {
    body_id := getBodyId data
    name := name
    type := if is_star then "Star" else "Planet"
    parent_id := parent_id
    semi_major_axis := semi_major_axis
    eccentricity := eccentricity
    orbital_inclination := orbital_inclination * pi_rat / 180
    orbital_period := orbital_period
    ascending_node := ascending_node * pi_rat / 180
    mean_anomaly := mean_anomaly * pi_rat / 180
    radius := radius
    mass := mass
    distance_from_arrival := distance_from_arrival
    planet_class := pyStr (jgetD data "PlanetClass" (.jstr ""))
    surface_temp := surface_temp
    surface_gravity := surface_gravity
    atmosphere_type := pyStr (jgetD data "AtmosphereType" (.jstr ""))
    terraform_state := pyStr (jgetD data "TerraformState" (.jstr ""))
    is_landable := jTruthy (jgetD data "Landable" (.jbool false))
  }

/-- `process_log_entry` (src/orrery.py lines 201-238).  `data['event']`
is an unguarded dict access, so a record with no `event` field raises
out of the method (`Except.error`); a `Scan` event whose record builds
successfully is stored under its identifier and, when it is a star, its
identifier is appended to the star list; a failure while building is
logged and the event is dropped, leaving the mapping and the star list
untouched.  (The trailing `self.after` calls only schedule redraws and
carry no model state.) -/
def process_log_entry (st : OrreryState) (data : List (String × JValue)) :
    Except String OrreryState :=
  match jlookup data "event" with
  | none => .error "KeyError: event"
  | some (.jstr ev) =>
    if ev = "Scan" then
      let body_id := getBodyId data
      match build_body data with
      | .ok body =>
        .ok { st with
              bodies := dictInsert st.bodies body_id body,
              stars := if is_star_of data then st.stars ++ [body_id] else st.stars }
      | .error e =>
        .ok { st with log := st.log ++ ["Error processing body data: " ++ e] }
    else .ok st
  | some _ => .ok st

/-- A directory listing: file name and modification time, files only
(`os.path.isfile` filtering is reflected by listing only files). -/
def DirListing := List (String × Nat)

/-- Python's `str.startswith`, on the character data. -/
def str_startswith (s pre : String) : Bool :=
  pre.data.isPrefixOf s.data

/-- Python's `str.endswith`, on the character data. -/
def str_endswith (s suf : String) : Bool :=
  suf.data.isSuffixOf s.data

/-- The journal-file filtering of `get_newest_file`
(src/orrery.py lines 266-268): names starting with `Journal.` and ending
in `.log`. -/
def journal_files (dir : List (String × Nat)) : List (String × Nat) :=
  dir.filter (fun f => str_startswith f.1 "Journal." && str_endswith f.1 ".log")

/-- Python's `max(files, key=os.path.getmtime)`: the first file whose
modification time is maximal (`max` keeps the earliest maximal item). -/
def max_by_mtime : List (String × Nat) → Option (String × Nat)
  | [] => none
  | f :: rest => some (rest.foldl (fun best g => if g.2 > best.2 then g else best) f)

/-- `get_newest_file` (src/orrery.py lines 264-274): the most recently
modified `Journal.*.log` file in the directory, `none` when there is
none (errors while listing also return `None` in the source; a listing
is always available here). -/
def get_newest_file (dir : List (String × Nat)) : Option String :=
  (max_by_mtime (journal_files dir)).map Prod.fst

/-- The control position of the `monitor_logs` loop
(src/orrery.py lines 239-262): between directory scans, or inside the
inner `readline` loop over one opened file. -/
inductive WatchMode where
  | scanning : WatchMode
  | reading : String → WatchMode
deriving Repr, DecidableEq

/-- State of the log watcher: its control position and the current
directory listing (mutated externally as the game writes files). -/
structure WatcherState where
  mode : WatchMode
  dir : List (String × Nat)
deriving Repr, DecidableEq

/-- One iteration of `monitor_logs` (src/orrery.py lines 243-262).
From `scanning`, the newest journal file (if any) is opened and the
watcher enters its inner `readline` loop.  The inner loop
(lines 250-259) only reads lines from the already-opened file and
sleeps; it re-examines neither the directory nor `get_newest_file`, so
from `reading f` every step leaves the state unchanged (the loop exits
only through shutdown, which ends the process's watching entirely). -/
def monitor_step (st : WatcherState) : WatcherState :=
  match st.mode with
  | .scanning =>
    match get_newest_file st.dir with
    | none => st
    | some f => { st with mode := .reading f }
  | .reading _ => st

/-- The parent key `get_body_position` would follow out of a body:
`none` when the body is a root (`parent_id` of `None` or `0`). -/
def next_key (b : CelestialBody) : Option ℚ :=
  match b.parent_id with
  | none => none
  | some p => if p = 0 then none else some p

/-- One step up the parent chain through the body mapping. -/
def chain_step (bodies : List (ℚ × CelestialBody)) (b : CelestialBody) :
    Option CelestialBody :=
  match next_key b with
  | none => none
  | some k => dictGet bodies k

/-- The body reached after `n` steps up the parent chain (`none` once
the chain has ended at a root or at a missing parent). -/
def visit (bodies : List (ℚ × CelestialBody)) : CelestialBody → Nat → Option CelestialBody
  | b, 0 => some b
  | b, n + 1 =>
    match chain_step bodies b with
    | none => none
    | some parent => visit bodies parent n

/-- The mapping key followed out of the `n`-th body of the parent
chain. -/
def key_at (bodies : List (ℚ × CelestialBody)) (b : CelestialBody) (n : Nat) : Option ℚ :=
  (visit bodies b n).bind next_key

/-- Whether the recursion of `get_body_position` reaches a base case
(root, parent id `0`, or missing parent) within `n` unfoldings. -/
def chain_terminates (bodies : List (ℚ × CelestialBody)) : Nat → CelestialBody → Bool
  | 0, _ => false
  | n + 1, b =>
    match next_key b with
    | none => true
    | some k =>
      match dictGet bodies k with
      | none => true
      | some parent => chain_terminates bodies n parent

/-- A two-body parent cycle: body 1's parent is body 2 and vice versa. -/
def cyc_a : CelestialBody :=
  { body_id := 1, name := "A", type := "Planet", parent_id := some 2 }

/-- Second body of the parent cycle. -/
def cyc_b : CelestialBody :=
  { body_id := 2, name := "B", type := "Planet", parent_id := some 1 }

/-- A body mapping containing a parent cycle. -/
def cyc_bodies : List (ℚ × CelestialBody) := [(1, cyc_a), (2, cyc_b)]

/-- Fixture: a root star (no parent). -/
def wstar : CelestialBody :=
  { body_id := 1, name := "Star A", type := "Star", parent_id := none }

/-- Fixture: a planet orbiting `wstar`. -/
def wplanet : CelestialBody :=
  { body_id := 2, name := "Planet B", type := "Planet", parent_id := some 1,
    semi_major_axis := 15000000000, eccentricity := 1/100,
    orbital_period := 31536000 }

/-- Fixture: a session state holding `wstar` in its body mapping, with an
800×600 canvas and a pan offset of (3, 4). -/
def wst : OrreryState :=
  { bodies := [(1, wstar)], stars := [1],
    center_x := 3, center_y := 4, canvas_width := 800, canvas_height := 600 }

/-- Fixture: a `Scan` event whose `BodyName` field is missing. -/
def e6 : List (String × JValue) :=
  [("event", .jstr "Scan"), ("BodyID", .jnum 7)]

/-- Fixture: a `Scan` event for a root star. -/
def e9 : List (String × JValue) :=
  [("event", .jstr "Scan"), ("BodyID", .jnum 1), ("BodyName", .jstr "A"),
   ("StarType", .jstr "K")]

/-- The body record built from `e9` (the three angle fields are written
as the degree-to-radian conversion of the defaulted `0`, which is how
the builder leaves them; they all equal `0`). -/
def star9 : CelestialBody :=
  { body_id := 1, name := "A", type := "Star", parent_id := none,
    orbital_inclination := 0 * pi_rat / 180,
    ascending_node := 0 * pi_rat / 180,
    mean_anomaly := 0 * pi_rat / 180 }

/-- Session state after processing `e9` once. -/
def st9a : OrreryState := { bodies := [(1, star9)], stars := [1] }

/-- Session state after processing `e9` twice. -/
def st9b : OrreryState := { bodies := [(1, star9)], stars := [1, 1] }

/-- Fixture: a directory holding two journal files, the second newer. -/
def dir8 : List (String × Nat) :=
  [("Journal.A.log", 1), ("Journal.B.log", 2)]

/-- Fixture: the watcher is inside its read loop on the older journal
file while a newer one is present in the directory. -/
def st8 : WatcherState := { mode := .reading "Journal.A.log", dir := dir8 }

/-- The record a minimal `Scan` event (only `event`, `BodyID`,
`BodyName`) builds: every optional field defaulted — numbers to `0`,
strings to `""`, `Landable` to `false`, `Parents` to no parent. -/
def default_scan_body (q : ℚ) (name : String) : CelestialBody :=
  { body_id := q, name := name, type := "Planet", parent_id := none,
    semi_major_axis := 0, eccentricity := 0, orbital_inclination := 0,
    orbital_period := 0, ascending_node := 0, mean_anomaly := 0,
    radius := 0, mass := 0, distance_from_arrival := 0, planet_class := "",
    surface_temp := 0, surface_gravity := 0, atmosphere_type := "",
    terraform_state := "", is_landable := false }

/-- The same record in the raw shape the builder leaves it in (the three
angle fields written as the degree-to-radian conversion of `0`). -/
def default_scan_body_raw (q : ℚ) (name : String) : CelestialBody :=
  { body_id := q, name := name, type := "Planet", parent_id := none,
    orbital_inclination := 0 * pi_rat / 180,
    ascending_node := 0 * pi_rat / 180,
    mean_anomaly := 0 * pi_rat / 180 }

/-- C3: for a body whose orbital period is zero, `calculate_position`
performs no division by the period and yields the same fixed offset at
every elapsed-time value (the angle degenerates to the stored mean
anomaly, which does not involve the time). -/
theorem calculate_position_static_when_period_zero
    (sin cos : ℚ → ℚ) (scale_factor zoom : ℚ) (body : CelestialBody) (t t' : ℚ)
    (h : body.orbital_period = 0) :
    calculate_position sin cos scale_factor zoom body t =
      calculate_position sin cos scale_factor zoom body t' := by
  unfold calculate_position
  rw [h]
  simp

/-- Witness for C3 at a concrete body with period zero. -/
theorem calculate_position_static_when_period_zero_witness :
    wstar.orbital_period = 0 ∧
    calculate_position id id 1 1 wstar 5 = calculate_position id id 1 1 wstar 90000 :=
  ⟨rfl, calculate_position_static_when_period_zero id id 1 1 wstar 5 90000 rfl⟩

/-- C2: a body whose `parent_id` is `None` or `0`, or whose parent
identifier misses the body mapping, resolves (at any positive fuel,
i.e. without the recursion diverging or raising) to the pan-adjusted
canvas center, and the result is unchanged under any zoom factor. -/
theorem get_body_position_root_center
    (sin cos : ℚ → ℚ) (st : OrreryState) (b : CelestialBody) (n : Nat)
    (h : b.parent_id = none ∨ b.parent_id = some 0 ∨
         ∃ p, b.parent_id = some p ∧ dictGet st.bodies p = none) :
    get_body_position sin cos st (n + 1) b =
      some (st.canvas_width / 2 + st.center_x, st.canvas_height / 2 + st.center_y) ∧
    ∀ z, get_body_position sin cos { st with zoom := z } (n + 1) b =
      some (st.canvas_width / 2 + st.center_x, st.canvas_height / 2 + st.center_y) := by
  rcases h with h | h | ⟨p, hp, hg⟩
  · exact ⟨by simp [get_body_position, h], fun z => by simp [get_body_position, h]⟩
  · exact ⟨by simp [get_body_position, h], fun z => by simp [get_body_position, h]⟩
  · by_cases hp0 : p = 0
    · subst hp0
      exact ⟨by simp [get_body_position, hp], fun z => by simp [get_body_position, hp]⟩
    · exact ⟨by simp [get_body_position, hp, hp0, hg],
             fun z => by simp [get_body_position, hp, hp0, hg]⟩

/-- Witness for C2: a root star resolves to (403, 304) on an 800×600
canvas panned by (3, 4), at zoom 1 and equally at zoom 250. -/
theorem get_body_position_root_center_witness :
    get_body_position id id wst 1 wstar = some (403, 304) ∧
    get_body_position id id { wst with zoom := 250 } 1 wstar = some (403, 304) := by
  have h := get_body_position_root_center id id wst wstar 0 (Or.inl rfl)
  refine ⟨?_, ?_⟩
  · rw [h.1]; norm_num [wst]
  · rw [h.2 250]; norm_num [wst]

/-- C1: when a body's parent identifier is present (and nonzero) and
resolves in the body mapping, `get_body_position` returns the parent's
absolute position plus the body's own orbital offset
`calculate_position body animation_time` — the recursive parent-chain
composition of src/orrery.py lines 161-163. -/
theorem get_body_position_parent_composition
    (sin cos : ℚ → ℚ) (st : OrreryState) (b parent : CelestialBody)
    (p px py : ℚ) (n : Nat)
    (hp : b.parent_id = some p) (hp0 : p ≠ 0)
    (hg : dictGet st.bodies p = some parent)
    (hpos : get_body_position sin cos st n parent = some (px, py)) :
    get_body_position sin cos st (n + 1) b =
      some (px + (calculate_position sin cos st.scale_factor st.zoom b st.animation_time).1,
            py + (calculate_position sin cos st.scale_factor st.zoom b st.animation_time).2) := by
  simp [get_body_position, hp, hp0, hg, hpos]

/-- Witness for C1: the planet fixture composes its offset onto its
parent star's absolute position (403, 304). -/
theorem get_body_position_parent_composition_witness :
    get_body_position id id wst 2 wplanet =
      some (403 + (calculate_position id id wst.scale_factor wst.zoom wplanet
                     wst.animation_time).1,
            304 + (calculate_position id id wst.scale_factor wst.zoom wplanet
                     wst.animation_time).2) :=
  get_body_position_parent_composition id id wst wplanet wstar 1 403 304 1
    rfl (by norm_num) rfl (by norm_num [get_body_position, wstar, wst])

/-- The state-threaded resolution agrees with the pure one and returns
its input state untouched. -/
theorem get_body_position_run_eq (sin cos : ℚ → ℚ) :
    ∀ (n : Nat) (b : CelestialBody) (st : OrreryState),
    get_body_position_run sin cos n b st = (get_body_position sin cos st n b, st) := by
  intro n
  induction n with
  | zero => intro b st; rfl
  | succ n ih =>
    intro b st
    rw [get_body_position_run, get_body_position]
    cases b.parent_id with
    | none => rfl
    | some p =>
      by_cases hp : p = 0
      · simp [hp]
      · simp only [hp, if_false]
        cases dictGet st.bodies p with
        | none => rfl
        | some parent =>
          simp only [ih]
          cases get_body_position sin cos st n parent with
          | none => rfl
          | some pos => cases pos with | mk px py => rfl

/-- C4: `get_body_position` is side-effect-free and deterministic —
a call returns the session state exactly as it received it, and a
second call on that returned state yields the same coordinates as the
first. -/
theorem get_body_position_pure_idempotent
    (sin cos : ℚ → ℚ) (n : Nat) (b : CelestialBody) (st : OrreryState) :
    (get_body_position_run sin cos n b st).2 = st ∧
    (get_body_position_run sin cos n b ((get_body_position_run sin cos n b st).2)).1 =
      (get_body_position_run sin cos n b st).1 := by
  rw [get_body_position_run_eq, get_body_position_run_eq]
  exact ⟨rfl, rfl⟩

/-- Splitting a successful `Except` bind. -/
theorem except_bind_ok {ε α β : Type} {x : Except ε α} {f : α → Except ε β} {b : β}
    (h : x >>= f = Except.ok b) : ∃ a, x = Except.ok a ∧ f a = Except.ok b := by
  cases x with
  | error e => simp [Bind.bind, Except.bind] at h
  | ok a => exact ⟨a, rfl, h⟩

/-- The kind stored by a successful build is decided by the presence of
the `StarType` field alone. -/
theorem build_body_type_eq (data : List (String × JValue)) (body : CelestialBody)
    (h : build_body data = Except.ok body) :
    body.type = if is_star_of data then "Star" else "Planet" := by
  unfold build_body at h
  cases hname : jlookup data "BodyName" with
  | none =>
    simp only [hname] at h
    simp [Bind.bind, Except.bind] at h
  | some v =>
  simp only [hname] at h
  obtain ⟨name, -, h⟩ := except_bind_ok h
  obtain ⟨parent_id, -, h⟩ := except_bind_ok h
  obtain ⟨sma, -, h⟩ := except_bind_ok h
  obtain ⟨ecc, -, h⟩ := except_bind_ok h
  obtain ⟨inc, -, h⟩ := except_bind_ok h
  obtain ⟨per, -, h⟩ := except_bind_ok h
  obtain ⟨asc, -, h⟩ := except_bind_ok h
  obtain ⟨man, -, h⟩ := except_bind_ok h
  obtain ⟨rad, -, h⟩ := except_bind_ok h
  obtain ⟨mass, -, h⟩ := except_bind_ok h
  obtain ⟨dfa, -, h⟩ := except_bind_ok h
  obtain ⟨stemp, -, h⟩ := except_bind_ok h
  obtain ⟨sgrav, -, h⟩ := except_bind_ok h
  cases h
  rfl

/-- C5: every body record built from a `Scan` event carries a kind among
Star, Planet and Moon, and the kind is Star exactly when the event has a
`StarType` field (src/orrery.py lines 206, 210; the code in fact only
ever stores Star or Planet). -/
theorem build_body_kind (data : List (String × JValue)) (body : CelestialBody)
    (h : build_body data = Except.ok body) :
    (body.type = "Star" ∨ body.type = "Planet" ∨ body.type = "Moon") ∧
    (body.type = "Star" ↔ (jlookup data "StarType").isSome) := by
  have ht := build_body_type_eq data body h
  by_cases hs : is_star_of data
  · rw [ht, if_pos hs]
    refine ⟨Or.inl rfl, ?_⟩
    unfold is_star_of at hs
    simp [hs]
  · rw [ht, if_neg hs]
    refine ⟨Or.inr (Or.inl rfl), ?_⟩
    unfold is_star_of at hs
    simp at hs
    simp [hs]

/-- Building the concrete star `Scan` event `e9` succeeds and yields
`star9`. -/
theorem build_body_e9 : build_body e9 = Except.ok star9 := rfl

/-- Witness for C5 at the concrete star `Scan` event `e9`. -/
theorem build_body_kind_witness :
    (star9.type = "Star" ∨ star9.type = "Planet" ∨ star9.type = "Moon") ∧
    (star9.type = "Star" ↔ (jlookup e9 "StarType").isSome) :=
  build_body_kind e9 star9 build_body_e9

/-- C6 counterexample: a `Scan` event whose `BodyName` field is missing
does NOT produce a (defaulted) body record — the unguarded
`data['BodyName']` access raises, the handler logs the error, and the
body mapping stays empty (note `bodies := []` in the resulting state),
contradicting the claim that every missing expected field is defaulted
rather than failing. -/
theorem scan_missing_name_drops_event :
    jlookup e6 "event" = some (.jstr "Scan") ∧
    jlookup e6 "BodyName" = none ∧
    process_log_entry {} e6 =
      Except.ok { bodies := [], stars := [],
                  log := ["Error processing body data: KeyError: BodyName"] } :=
  ⟨rfl, rfl, rfl⟩

/-- C6 (amended): in a `Scan` event every expected field other than
`BodyName` may be absent and is defaulted — numeric fields to zero,
string fields to empty, `Landable` to false, `Parents` to no parent —
and the event still produces a body record in the mapping; only a
missing `BodyName` raises (and the event is then dropped by the
handler, as the counterexample shows). -/
theorem scan_defaults_absent_fields (st : OrreryState) (q : ℚ) (name : String) :
    process_log_entry st
        [("event", .jstr "Scan"), ("BodyID", .jnum q), ("BodyName", .jstr name)] =
      Except.ok { st with bodies := dictInsert st.bodies q (default_scan_body q name) } := by
  have h : process_log_entry st
        [("event", .jstr "Scan"), ("BodyID", .jnum q), ("BodyName", .jstr name)] =
      Except.ok { st with bodies := dictInsert st.bodies q (default_scan_body_raw q name) } :=
    rfl
  have hb : default_scan_body_raw q name = default_scan_body q name := by
    unfold default_scan_body_raw default_scan_body
    norm_num
  rw [h, hb]

/-- C7: when building a body record from a `Scan` event raises, that
event is dropped atomically — the returned state keeps the body mapping
and the star list exactly as they were, the error is logged, and the
call returns normally (so processing of later events continues). -/
theorem scan_build_error_atomic (st : OrreryState) (data : List (String × JValue))
    (msg : String)
    (hev : jlookup data "event" = some (.jstr "Scan"))
    (herr : build_body data = Except.error msg) :
    process_log_entry st data =
      Except.ok { st with log := st.log ++ ["Error processing body data: " ++ msg] } := by
  simp [process_log_entry, hev, herr]

/-- Witness for C7 at the concrete `Scan` event missing `BodyName`. -/
theorem scan_build_error_atomic_witness :
    process_log_entry {} e6 =
      Except.ok { log := ["Error processing body data: KeyError: BodyName"] } :=
  scan_build_error_atomic {} e6 "KeyError: BodyName" rfl rfl

/-- C9 counterexample: processing the same star `Scan` event twice
appends its identifier to the star list twice — the list is not a set
of root-star identifiers and re-scanning does add a second entry. -/
theorem stars_duplicate_on_rescan :
    process_log_entry {} e9 = Except.ok st9a ∧
    process_log_entry st9a e9 = Except.ok st9b ∧
    st9b.stars = [1, 1] :=
  ⟨rfl, rfl, rfl⟩

/-- C9 (amended): each successfully built `Scan` event stores its body
record under its identifier (updating in place), and appends the
identifier to the star list exactly when the event carries `StarType` —
unconditionally, so a re-scanned star is appended again and stars with
parents are included too. -/
theorem scan_success_updates_model (st : OrreryState) (data : List (String × JValue))
    (body : CelestialBody)
    (hev : jlookup data "event" = some (.jstr "Scan"))
    (hok : build_body data = Except.ok body) :
    process_log_entry st data =
      Except.ok { st with
        bodies := dictInsert st.bodies (getBodyId data) body,
        stars := if is_star_of data then st.stars ++ [getBodyId data] else st.stars } := by
  simp [process_log_entry, hev, hok]

/-- Witness for the amended C9 at the concrete star `Scan` event. -/
theorem scan_success_updates_model_witness :
    process_log_entry {} e9 = Except.ok st9a :=
  scan_success_updates_model {} e9 star9 rfl build_body_e9


/-- C8 counterexample: with the watcher inside its read loop on
`Journal.A.log` while the directory holds the newer `Journal.B.log`,
an iteration of the monitor loop leaves the watcher exactly where it
was — it does not switch to the newer file. -/
theorem watcher_ignores_newer_file :
    get_newest_file st8.dir = some "Journal.B.log" ∧
    st8.mode = WatchMode.reading "Journal.A.log" ∧
    monitor_step st8 = st8 := by
  refine ⟨?_, rfl, rfl⟩
  decide

/-- C8 (amended): the watcher picks the most recently modified journal
file only when it starts a read session from its directory-scanning
state; once inside the read loop on a file it never re-examines the
directory, so it keeps reading that file even when a newer journal file
appears (until shutdown). -/
theorem watcher_session_file_choice :
    (∀ (st : WatcherState) (f : String),
        st.mode = WatchMode.reading f → monitor_step st = st) ∧
    (∀ (st : WatcherState) (f : String),
        st.mode = WatchMode.scanning → get_newest_file st.dir = some f →
        monitor_step st = { st with mode := WatchMode.reading f }) := by
  constructor
  · intro st f h
    simp [monitor_step, h]
  · intro st f h hg
    simp [monitor_step, h, hg]

/-- Witness for the amended C8: reading never switches; scanning opens
the newest file. -/
theorem watcher_session_file_choice_witness :
    monitor_step st8 = st8 ∧
    monitor_step { mode := WatchMode.scanning, dir := dir8 } =
      { mode := WatchMode.reading "Journal.B.log", dir := dir8 } := by
  constructor
  · exact watcher_session_file_choice.1 st8 "Journal.A.log" rfl
  · exact watcher_session_file_choice.2
      { mode := WatchMode.scanning, dir := dir8 } "Journal.B.log" rfl (by decide)

/-- The recursion of `get_body_position` reaches a base case exactly
when the parent chain does: the fuelled resolution returns a value iff
the chain terminates within the fuel. -/
theorem gbp_isSome_eq_chain (sin cos : ℚ → ℚ) (st : OrreryState) :
    ∀ (n : Nat) (b : CelestialBody),
    (get_body_position sin cos st n b).isSome = chain_terminates st.bodies n b := by
  intro n
  induction n with
  | zero => intro b; rfl
  | succ n ih =>
    intro b
    rw [get_body_position, chain_terminates]
    cases hb : b.parent_id with
    | none => simp [next_key, hb]
    | some p =>
      by_cases hp : p = 0
      · simp [next_key, hb, hp]
      · simp only [next_key, hb, hp, if_false]
        cases hg : dictGet st.bodies p with
        | none => simp [hg]
        | some parent =>
          simp only [hg]
          rw [← ih parent]
          cases get_body_position sin cos st n parent with
          | none => rfl
          | some pos => cases pos; rfl

/-- A key that resolves in the body mapping is one of its keys. -/
theorem dictGet_mem_keys :
    ∀ (m : List (ℚ × CelestialBody)) (k : ℚ) (v : CelestialBody),
    dictGet m k = some v → k ∈ m.map Prod.fst := by
  intro m
  induction m with
  | nil => intro k v h; simp [dictGet] at h
  | cons hd tl ih =>
    intro k v h
    obtain ⟨k', v'⟩ := hd
    by_cases hkk : k' = k
    · subst hkk; simp
    · rw [dictGet, if_neg hkk] at h
      simp only [List.map_cons, List.mem_cons]
      exact Or.inr (ih k v h)

/-- Inversion of a failing chain step: if the chain does not reach a
base case in `n + 1` steps, the body has a nonzero parent key that
resolves to a parent whose chain fails in `n` steps. -/
theorem chain_terminates_succ_false (bodies : List (ℚ × CelestialBody))
    (b : CelestialBody) (n : Nat)
    (h : chain_terminates bodies (n + 1) b = false) :
    ∃ k parent, next_key b = some k ∧ dictGet bodies k = some parent ∧
      chain_terminates bodies n parent = false := by
  rw [chain_terminates] at h
  split at h
  · simp at h
  · rename_i k hk
    split at h
    · simp at h
    · rename_i parent hg
      exact ⟨k, parent, hk, hg, h⟩

/-- On a chain that never reaches a base case, every position of the
chain follows some key that resolves in the mapping. -/
theorem chain_not_term_key (bodies : List (ℚ × CelestialBody)) :
    ∀ (n : Nat) (b : CelestialBody),
    (∀ m, chain_terminates bodies m b = false) →
    ∃ k, key_at bodies b n = some k ∧ (dictGet bodies k).isSome = true := by
  intro n
  induction n with
  | zero =>
    intro b h
    obtain ⟨k, parent, hk, hg, -⟩ := chain_terminates_succ_false bodies b 0 (h 1)
    exact ⟨k, by simp [key_at, visit, hk], by rw [hg]; rfl⟩
  | succ n ih =>
    intro b h
    obtain ⟨k0, parent, hk, hg, -⟩ := chain_terminates_succ_false bodies b 0 (h 1)
    have hpar : ∀ m, chain_terminates bodies m parent = false := by
      intro m
      obtain ⟨k2, parent2, hk2, hg2, hcont⟩ :=
        chain_terminates_succ_false bodies b m (h (m + 1))
      rw [hk] at hk2
      injection hk2 with e
      subst e
      rw [hg] at hg2
      injection hg2 with e2
      subst e2
      exact hcont
    obtain ⟨k, hkey, hsome⟩ := ih parent hpar
    have hstep : chain_step bodies b = some parent := by
      unfold chain_step
      rw [hk]
      exact hg
    refine ⟨k, ?_, hsome⟩
    rw [key_at] at hkey ⊢
    have hv : visit bodies b (n + 1) = visit bodies parent n := by
      rw [visit, hstep]
    rw [hv]
    exact hkey

/-- An acyclic parent chain must reach a base case: were it to run
forever it would follow infinitely many pairwise distinct keys, all of
them keys of the finite body mapping. -/
theorem chain_terminates_of_acyclic (bodies : List (ℚ × CelestialBody)) (b : CelestialBody)
    (hacyc : ∀ (i j : Nat) (k : ℚ), key_at bodies b i = some k →
        key_at bodies b j = some k → i = j) :
    ∃ n, chain_terminates bodies n b = true := by
  by_contra hno
  push_neg at hno
  have hall : ∀ m, chain_terminates bodies m b = false := by
    intro m
    cases hcm : chain_terminates bodies m b with
    | false => rfl
    | true => exact absurd hcm (hno m)
  have hex : ∀ n : Nat, ∃ k, key_at bodies b n = some k ∧ (dictGet bodies k).isSome = true :=
    fun n => chain_not_term_key bodies n b hall
  choose kf hk1 hk2 using hex
  set S : Finset ℚ := (bodies.map Prod.fst).toFinset with hS
  have hmem : ∀ n, kf n ∈ S := by
    intro n
    rw [hS, List.mem_toFinset]
    obtain ⟨v, hv⟩ := Option.isSome_iff_exists.mp (hk2 n)
    exact dictGet_mem_keys bodies (kf n) v hv
  have hinj : Function.Injective
      (fun i : Fin (S.card + 1) => (⟨kf i, hmem i⟩ : {x // x ∈ S})) := by
    intro i j hij
    have hkk : kf i = kf j := congrArg Subtype.val hij
    have hnat : (i : Nat) = (j : Nat) :=
      hacyc i j (kf i) (hk1 i) (by rw [hkk]; exact hk1 j)
    exact Fin.ext hnat
  have hcard := Fintype.card_le_of_injective _ hinj
  rw [Fintype.card_fin, Fintype.card_coe] at hcard
  omega

/-- Neither body of the two-body parent cycle ever reaches a base
case, at any recursion depth. -/
theorem cyc_chain_never_terminates :
    ∀ n, chain_terminates cyc_bodies n cyc_a = false ∧
         chain_terminates cyc_bodies n cyc_b = false := by
  intro n
  induction n with
  | zero => exact ⟨rfl, rfl⟩
  | succ n ih =>
    have h1 : next_key cyc_a = some 2 := by norm_num [next_key, cyc_a]
    have h2 : dictGet cyc_bodies 2 = some cyc_b := by norm_num [dictGet, cyc_bodies]
    have h3 : next_key cyc_b = some 1 := by norm_num [next_key, cyc_b]
    have h4 : dictGet cyc_bodies 1 = some cyc_a := by norm_num [dictGet, cyc_bodies]
    refine ⟨?_, ?_⟩
    · simp only [chain_terminates, h1, h2]
      exact ih.2
    · simp only [chain_terminates, h3, h4]
      exact ih.1

/-- A root body's chain follows no key at all. -/
theorem key_at_parent_none (bodies : List (ℚ × CelestialBody)) (b : CelestialBody)
    (hb : b.parent_id = none) : ∀ n, key_at bodies b n = none := by
  intro n
  cases n with
  | zero => simp [key_at, visit, next_key, hb]
  | succ n =>
    have hstep : chain_step bodies b = none := by simp [chain_step, next_key, hb]
    simp [key_at, visit, hstep]

/-- C10: on a body mapping whose parent chain from a body is acyclic
(the sequence of followed parent keys never repeats), `get_body_position`
terminates — some recursion depth returns a position; and termination
fails on a mapping with a parent cycle: on the concrete two-body cycle
the recursion returns no value at any depth, modelling divergence of the
unguarded Python recursion. -/
theorem get_body_position_termination :
    (∀ (sin cos : ℚ → ℚ) (st : OrreryState) (b : CelestialBody),
        (∀ (i j : Nat) (k : ℚ), key_at st.bodies b i = some k →
            key_at st.bodies b j = some k → i = j) →
        ∃ n, (get_body_position sin cos st n b).isSome = true) ∧
    (∀ (sin cos : ℚ → ℚ) (st : OrreryState), st.bodies = cyc_bodies →
        ∀ n, get_body_position sin cos st n cyc_a = none) := by
  constructor
  · intro sin cos st b hacyc
    obtain ⟨n, hn⟩ := chain_terminates_of_acyclic st.bodies b hacyc
    refine ⟨n, ?_⟩
    rw [gbp_isSome_eq_chain sin cos st n b, hn]
  · intro sin cos st hst n
    have h2 := gbp_isSome_eq_chain sin cos st n cyc_a
    rw [hst, (cyc_chain_never_terminates n).1] at h2
    cases hgo : get_body_position sin cos st n cyc_a with
    | none => rfl
    | some v => rw [hgo] at h2; simp at h2

/-- Witness for C10: the fixture mapping (one root star) is acyclic and
resolves, and the concrete cyclic mapping returns no value at depth 5. -/
theorem get_body_position_termination_witness :
    (∃ n, (get_body_position id id wst n wstar).isSome = true) ∧
    get_body_position id id { bodies := cyc_bodies } 5 cyc_a = none := by
  constructor
  · exact get_body_position_termination.1 id id wst wstar (by
      intro i j k hi hj
      rw [key_at_parent_none wst.bodies wstar rfl i] at hi
      exact absurd hi (by simp))
  · exact get_body_position_termination.2 id id { bodies := cyc_bodies } rfl 5
